import Mathlib

/-!
Shallow embedding of the crawl engine of the bs4_web_scraper repository
(files bs4_web_scraper/base.py and bs4_web_scraper/request_limiter.py),
together with theorems settling the specification claims C1..C10.

Machine integers are modelled as `Nat`/`Int`; Python exceptions are modelled
as `Option`/`Except` results; the blocking sleeps of the rate limiter are
modelled as an explicit event trace.
-/

deriving instance DecidableEq for Except

namespace BS4Scraper

/-- Observable events of `RequestLimitSetting.pause` (request_limiter.py lines
126-134): the paused flag is raised, the thread sleeps for `pause_duration`
seconds, and the flag is lowered again. -/
inductive LimiterEvent where
  | pauseStart : LimiterEvent
  | sleep (seconds : Nat) : LimiterEvent
  | pauseEnd : LimiterEvent
deriving DecidableEq

/-- State of `RequestLimitSetting` (request_limiter.py lines 39-62).  The two
counters are `Int` so that (non-)negativity is an observable property. -/
structure RequestLimitSetting where
  max_request_count_per_second : Nat
  pause_duration : Nat
  max_retries : Nat
  no_of_available_request : Int
  no_of_available_retries : Int
  requests_paused : Bool
deriving DecidableEq

/-- A limiter carrying budget `B`, pause `d`, retry maximum `R`, with
`no_of_available_request` currently `a` and not paused. -/
def limiterWith (B d R : Nat) (a : Int) : RequestLimitSetting :=
  { max_request_count_per_second := B, pause_duration := d, max_retries := R,
    no_of_available_request := a, no_of_available_retries := (R : Int),
    requests_paused := false }

/-- Constructor `RequestLimitSetting.__init__` (request_limiter.py lines 39-62): a fresh
limiter has its full request budget and retry budget available. -/
def RequestLimitSetting.init (request_count pause_duration max_retries : Nat) :
    RequestLimitSetting :=
  limiterWith request_count pause_duration max_retries (request_count : Int)

/-- Method `RequestLimitSetting.pause` (request_limiter.py lines 126-134): sets
`requests_paused`, sleeps for `pause_duration` seconds, then clears
`requests_paused`; the returned trace records the pause window. -/
def RequestLimitSetting.pause (s : RequestLimitSetting) :
    RequestLimitSetting × List LimiterEvent :=
  ({ s with requests_paused := false },
    [LimiterEvent.pauseStart, LimiterEvent.sleep s.pause_duration, LimiterEvent.pauseEnd])

/-- Method `RequestLimitSetting.request_made` (request_limiter.py lines 73-79):
decrement the available-request counter; when it reaches exactly 0, pause and
then restore it to `max_request_count_per_second`. -/
def RequestLimitSetting.request_made (s : RequestLimitSetting) :
    RequestLimitSetting × List LimiterEvent :=
  let s1 : RequestLimitSetting :=
    { s with no_of_available_request := s.no_of_available_request - 1 }
  if s1.no_of_available_request = 0 then
    let p := s1.pause
    ({ p.1 with no_of_available_request := (s.max_request_count_per_second : Int) }, p.2)
  else
    (s1, [])

/-- Runs `request_made` `n` times, concatenating the emitted pause traces. -/
def requestsMade (s : RequestLimitSetting) : Nat → RequestLimitSetting × List LimiterEvent
  | 0 => (s, [])
  | n + 1 =>
    let r1 := s.request_made
    let r2 := requestsMade r1.1 n
    (r2.1, r1.2 ++ r2.2)

theorem request_made_noPause (B d R : Nat) (a : Int) (h : a ≠ 1) :
    (limiterWith B d R a).request_made = (limiterWith B d R (a - 1), []) := by
  have h0 : a - 1 ≠ 0 := fun hc => h (by omega)
  simp [RequestLimitSetting.request_made, limiterWith, h0]

theorem request_made_pause (B d R : Nat) :
    (limiterWith B d R 1).request_made
      = (limiterWith B d R (B : Int),
         [LimiterEvent.pauseStart, LimiterEvent.sleep d, LimiterEvent.pauseEnd]) := by
  simp [RequestLimitSetting.request_made, RequestLimitSetting.pause, limiterWith]

theorem requestsMade_no_pause (B d R : Nat) :
    ∀ (k : Nat) (a : Int), (k : Int) < a →
      requestsMade (limiterWith B d R a) k = (limiterWith B d R (a - k), []) := by
  intro k
  induction k with
  | zero => intro a _; simp [requestsMade]
  | succ n ih =>
    intro a ha
    have h1 : a ≠ 1 := by
      have : (0 : Int) ≤ (n : Int) := Int.natCast_nonneg n
      omega
    have hlt : (n : Int) < a - 1 := by push_cast at ha ⊢; omega
    have heq : a - 1 - (n : Int) = a - ((n : Nat) + 1 : Nat) := by push_cast; ring
    simp only [requestsMade, request_made_noPause B d R a h1, ih (a - 1) hlt]
    simp [heq]

theorem requestsMade_split (m n : Nat) :
    ∀ s : RequestLimitSetting,
      requestsMade s (m + n)
        = ((requestsMade (requestsMade s m).1 n).1,
           (requestsMade s m).2 ++ (requestsMade (requestsMade s m).1 n).2) := by
  induction m with
  | zero => intro s; simp [requestsMade]
  | succ k ih =>
    intro s
    have hsucc : k + 1 + n = (k + n) + 1 := by omega
    rw [hsucc]
    simp only [requestsMade, ih (s.request_made).1]
    simp [List.append_assoc]

/-- C3: starting from a fresh limiter with budget `B` (1 ≤ B ≤ 100) and pause
duration `d` (≥ 5 seconds), the first `k < B` registered requests trigger no
pause and leave a never-negative remaining counter equal to `B - k`; the `B`-th
request makes the limiter enter the paused state, block for exactly `d`
seconds, leave the paused state, and restore the remaining counter to `B`. -/
theorem claim_C3 (B d R : Nat) (hB1 : 1 ≤ B) (hB2 : B ≤ 100) (hd : 5 ≤ d) :
    (∀ k : Nat, k < B →
        requestsMade (RequestLimitSetting.init B d R) k
          = (limiterWith B d R ((B : Int) - k), [])
        ∧ 0 ≤ (B : Int) - k) ∧
    requestsMade (RequestLimitSetting.init B d R) B
      = (RequestLimitSetting.init B d R,
         [LimiterEvent.pauseStart, LimiterEvent.sleep d, LimiterEvent.pauseEnd]) := by
  constructor
  · intro k hk
    refine ⟨requestsMade_no_pause B d R k (B : Int) (by exact_mod_cast hk), ?_⟩
    have : (k : Int) < (B : Int) := by exact_mod_cast hk
    omega
  · have hsplit := requestsMade_split (B - 1) 1 (RequestLimitSetting.init B d R)
    have hB : B - 1 + 1 = B := by omega
    rw [hB] at hsplit
    rw [hsplit]
    have hlt : ((B - 1 : Nat) : Int) < (B : Int) := by
      have : (1 : Int) ≤ (B : Int) := by exact_mod_cast hB1
      push_cast; omega
    have h1 : requestsMade (RequestLimitSetting.init B d R) (B - 1)
        = (limiterWith B d R ((B : Int) - ((B - 1 : Nat) : Int)), []) :=
      requestsMade_no_pause B d R (B - 1) (B : Int) hlt
    have hone : (B : Int) - ((B - 1 : Nat) : Int) = 1 := by
      have : (1 : Int) ≤ (B : Int) := by exact_mod_cast hB1
      push_cast [Nat.cast_sub hB1]; omega
    rw [h1, hone]
    simp [requestsMade, request_made_pause B d R, RequestLimitSetting.init]

/-- Witness for C3 at `B = 3`, `d = 5`, `R = 2`. -/
theorem claim_C3_witness :
    requestsMade (RequestLimitSetting.init 3 5 2) 3
      = (RequestLimitSetting.init 3 5 2,
         [LimiterEvent.pauseStart, LimiterEvent.sleep 5, LimiterEvent.pauseEnd]) :=
  (claim_C3 3 5 2 (by decide) (by decide) (by decide)).2

/-- Outcome classification of `BS4BaseScraper._handle_response` (base.py lines
593-614): `ok` for a response with `response.ok` (status < 400), `retry` when a
429 response will be retried (the source returns `False` and `get` re-invokes
itself after sleeping), and `stale` when the request is abandoned (the source
returns `None`). -/
inductive HandleResult where
  | ok : HandleResult
  | retry : HandleResult
  | stale : HandleResult
deriving DecidableEq

/-- Method `RequestLimitSetting.got_response_error` (request_limiter.py lines 104-106). -/
def RequestLimitSetting.got_response_error (s : RequestLimitSetting) : RequestLimitSetting :=
  { s with no_of_available_retries := s.no_of_available_retries - 1 }

/-- Method `RequestLimitSetting.reset_max_retry` (request_limiter.py lines 109-111). -/
def RequestLimitSetting.reset_max_retry (s : RequestLimitSetting) : RequestLimitSetting :=
  { s with no_of_available_retries := (s.max_retries : Int) }

/-- Property `RequestLimitSetting.can_retry` (request_limiter.py lines 120-123). -/
def RequestLimitSetting.can_retry (s : RequestLimitSetting) : Bool :=
  decide (0 < s.no_of_available_retries)

/-- Method `BS4BaseScraper._handle_response` (base.py lines 593-614) for a response
with the given HTTP status code, in the configured-limiter case
(`self.request_limit_setting` is set).  Every non-ok response first registers a
response error (decrementing the retry counter); only a 429 is ever retried,
and only a stale 429 resets the retry counter. -/
def handle_response (s : RequestLimitSetting) (status : Nat) :
    RequestLimitSetting × HandleResult :=
  if status < 400 then (s, HandleResult.ok)
  else
    let s1 := s.got_response_error
    if status = 429 then
      if s1.can_retry then (s1, HandleResult.retry)
      else (s1.reset_max_retry, HandleResult.stale)
    else (s1, HandleResult.stale)

/-- The retry loop of `BS4BaseScraper.get` (base.py lines 551-590) specialised
to a URL whose every fetch returns HTTP 429, with the request-budget
bookkeeping of `request_made` included.  Each unfolding is one `session.get`
attempt; on a `retry` outcome the source sleeps `2 * pause_duration` and calls
`self.get(url)` again (`can_make_requests` is `True` whenever control reaches
the GET, because `pause` clears the flag before returning).  Returns `none`
when the fuel runs out, otherwise `some (outcome, finalState, attempts)`; the
source's stale outcome is the Python value `None`, modelled as `Option.none`
in the first component. -/
def get_always_429 (s : RequestLimitSetting) :
    Nat → Option (Option Unit × RequestLimitSetting × Nat)
  | 0 => none
  | fuel + 1 =>
    let s1 := (s.request_made).1
    let h := handle_response s1 429
    match h.2 with
    | HandleResult.retry =>
        (get_always_429 h.1 fuel).map (fun r => (r.1, r.2.1, r.2.2 + 1))
    | _ => some (none, h.1, 1)

theorem request_made_retries (s : RequestLimitSetting) :
    ((s.request_made).1.no_of_available_retries = s.no_of_available_retries)
    ∧ ((s.request_made).1.max_retries = s.max_retries) := by
  simp only [RequestLimitSetting.request_made, RequestLimitSetting.pause]
  split <;> simp

theorem handle_response_429 (s : RequestLimitSetting) :
    handle_response s 429
      = if s.got_response_error.can_retry = true
          then (s.got_response_error, HandleResult.retry)
          else (s.got_response_error.reset_max_retry, HandleResult.stale) := by
  simp [handle_response]

theorem get_always_429_step_retry (s : RequestLimitSetting) (fuel : Nat)
    (h : ((s.request_made).1.got_response_error).can_retry = true) :
    get_always_429 s (fuel + 1)
      = (get_always_429 ((s.request_made).1.got_response_error) fuel).map
          (fun r => (r.1, r.2.1, r.2.2 + 1)) := by
  simp only [get_always_429, handle_response_429, h, if_true]

theorem get_always_429_step_stale (s : RequestLimitSetting) (fuel : Nat)
    (h : ((s.request_made).1.got_response_error).can_retry = false) :
    get_always_429 s (fuel + 1)
      = some (none, ((s.request_made).1.got_response_error).reset_max_retry, 1) := by
  simp only [get_always_429, handle_response_429, h]
  simp

theorem get_always_429_run :
    ∀ (n : Nat) (s : RequestLimitSetting),
      s.no_of_available_retries = ((n + 1 : Nat) : Int) →
      ∃ s', get_always_429 s (n + 1) = some (none, s', n + 1)
        ∧ s'.no_of_available_retries = (s.max_retries : Int) := by
  intro n
  induction n with
  | zero =>
    intro s hs
    have h0 : ((s.request_made).1.got_response_error).no_of_available_retries = 0 := by
      show (s.request_made).1.no_of_available_retries - 1 = 0
      rw [(request_made_retries s).1, hs]
      norm_num
    have hretr : ((s.request_made).1.got_response_error).can_retry = false := by
      simp [RequestLimitSetting.can_retry, h0]
    refine ⟨((s.request_made).1.got_response_error).reset_max_retry, ?_, ?_⟩
    · exact get_always_429_step_stale s 0 hretr
    · show (((s.request_made).1.got_response_error).max_retries : Int) = (s.max_retries : Int)
      exact congrArg _ (request_made_retries s).2
  | succ k ih =>
    intro s hs
    have hrtr : ((s.request_made).1.got_response_error).no_of_available_retries
        = ((k + 1 : Nat) : Int) := by
      show (s.request_made).1.no_of_available_retries - 1 = ((k + 1 : Nat) : Int)
      rw [(request_made_retries s).1, hs]
      push_cast; ring
    have hcan : ((s.request_made).1.got_response_error).can_retry = true := by
      simp [RequestLimitSetting.can_retry, hrtr]
    have hmax : ((s.request_made).1.got_response_error).max_retries = s.max_retries :=
      (request_made_retries s).2
    obtain ⟨s', hrun, hs'⟩ := ih ((s.request_made).1.got_response_error) hrtr
    refine ⟨s', ?_, by rw [hs', hmax]⟩
    rw [get_always_429_step_retry s (k + 1) hcan, hrun]
    rfl

/-- C4: for a URL whose every fetch attempt yields HTTP 429, starting from a
fresh limiter with `max_no_of_retries = R`, the fetch gives up after exactly
`R` attempts, returns the stale-request outcome (`None`, modelled as the
`Option.none` first component, so the resource is skipped rather than the
crawl aborted), and at that point the retry counter is restored to its
configured maximum `R`. -/
theorem claim_C4 (B d R : Nat) (hR : 1 ≤ R) (hB : 1 ≤ B) (hB2 : B ≤ 100) (hd : 5 ≤ d) :
    ∃ s', get_always_429 (RequestLimitSetting.init B d R) R = some (none, s', R)
      ∧ s'.no_of_available_retries = (R : Int) := by
  obtain ⟨m, rfl⟩ : ∃ m, R = m + 1 := ⟨R - 1, by omega⟩
  have hinit : (RequestLimitSetting.init B d (m + 1)).no_of_available_retries
      = ((m + 1 : Nat) : Int) := rfl
  obtain ⟨s', hrun, hs'⟩ := get_always_429_run m (RequestLimitSetting.init B d (m + 1)) hinit
  exact ⟨s', hrun, hs'⟩

/-- Witness for C4 at budget 20, pause 5, `max_no_of_retries = 3`. -/
theorem claim_C4_witness :
    ∃ s', get_always_429 (RequestLimitSetting.init 20 5 3) 3 = some (none, s', 3)
      ∧ s'.no_of_available_retries = (3 : Int) :=
  claim_C4 20 5 3 (by decide) (by decide) (by decide) (by decide)

/-- C8 counterexample: a 403 response is stale (never retried) but it does
consume retry budget — `_handle_response` calls `got_response_error()` before
inspecting the status code, so the retries-remaining counter drops from 3 to 2
on a single 403 response, refuting "the retries-remaining counter is unchanged
by a 403 or 404 response". -/
theorem claim_C8_counterexample :
    (RequestLimitSetting.init 20 5 3).no_of_available_retries = 3
    ∧ (handle_response (RequestLimitSetting.init 20 5 3) 403).1.no_of_available_retries = 2
    ∧ (handle_response (RequestLimitSetting.init 20 5 3) 403).2 = HandleResult.stale := by
  decide

/-- C8 (amended): a fatal HTTP status (403 or 404) is treated as immediately
stale — it is never retried — but it is not free: the response error is
registered, decrementing the retries-remaining counter by one, and the counter
is not restored afterwards. -/
theorem claim_C8 (s : RequestLimitSetting) (status : Nat)
    (h : status = 403 ∨ status = 404) :
    handle_response s status = (s.got_response_error, HandleResult.stale) := by
  rcases h with h | h <;> subst h <;> simp [handle_response]

/-- Witness for C8 on a fresh limiter and a 403 response. -/
theorem claim_C8_witness :
    handle_response (RequestLimitSetting.init 20 5 3) 403
      = ((RequestLimitSetting.init 20 5 3).got_response_error, HandleResult.stale) :=
  claim_C8 (RequestLimitSetting.init 20 5 3) 403 (Or.inl rfl)

/-- Method `BS4BaseScraper._get_suitable_no_threads` (base.py lines 347-363).  `none`
models a raised exception: `ValueError` when `item_count <= 0`,
`ZeroDivisionError` when `max_request_count_per_second // pause_duration == 0`,
and the `math.log10(0)` domain error when `item_count * no_of_threads == 0`.
`Nat.log 10` is `floor(log10 _)` on positive integers, which is what
`math.floor(math.log10(_))` computes; the cap `10` is `_max_no_of_threads`. -/
def _get_suitable_no_threads (pause_duration max_request_count item_count : Nat) :
    Option Nat :=
  if item_count = 0 then none
  else if max_request_count / pause_duration = 0 then none
  else
    let t := pause_duration / (max_request_count / pause_duration)
    if item_count * t = 0 then none
    else
      let n := min (Nat.log 10 (item_count * t)) 10
      some (if 0 < n then n else 1)

/-- C9 counterexample: with the valid limiter configuration budget 4
(∈ 1..100), pause duration 5 (≥ 5) and item count 1 (≥ 1), the source raises
`ZeroDivisionError` (`4 // 5 == 0`); with budget 30 and pause 5 it raises a
`math.log10(0)` domain error (`5 // (30 // 5) == 0`).  Both refute totality. -/
theorem claim_C9_counterexample :
    _get_suitable_no_threads 5 4 1 = none
    ∧ _get_suitable_no_threads 5 30 1 = none := by
  decide

/-- C9 (amended): the worker-pool size computation is total and returns an
integer between 1 and 10 only on the configurations where neither division
collapses to zero: it requires `pause_duration ≤ budget` (so that
`budget // pause ≥ 1`) and `budget // pause ≤ pause` (so that
`pause // (budget // pause) ≥ 1`), plus `item_count ≥ 1`; outside that range
the source raises `ZeroDivisionError` or a `math.log10(0)` domain error. -/
theorem claim_C9 (p b n : Nat) (h1 : 1 ≤ b / p) (h2 : 1 ≤ p / (b / p)) (hn : 1 ≤ n) :
    ∃ k, _get_suitable_no_threads p b n = some k ∧ 1 ≤ k ∧ k ≤ 10 := by
  have hn0 : n ≠ 0 := by omega
  have hq0 : ¬ (b / p = 0) := by omega
  have ht0 : n * (p / (b / p)) ≠ 0 := by
    have : 1 ≤ n * (p / (b / p)) := Nat.one_le_iff_ne_zero.mpr (by positivity)
    omega
  refine ⟨if 0 < min (Nat.log 10 (n * (p / (b / p)))) 10
      then min (Nat.log 10 (n * (p / (b / p)))) 10 else 1, ?_, ?_, ?_⟩
  · simp [_get_suitable_no_threads, hn0, hq0, ht0]
  · split <;> omega
  · split
    · exact le_trans (min_le_right _ _) (by omega)
    · omega

/-- Witness for C9 at pause 11, budget 20, one item (`20 // 11 = 1`,
`11 // 1 = 11`). -/
theorem claim_C9_witness :
    ∃ k, _get_suitable_no_threads 11 20 1 = some k ∧ 1 ≤ k ∧ k ≤ 10 :=
  claim_C9 11 20 1 (by decide) (by decide) (by decide)

/-- Python's substring test `needle in hay` on character lists, as used by the
same-origin checks of base.py (`base_url_obj.netloc in actual_url_obj.netloc`). -/
def pySubstr (needle : List Char) : List Char → Bool
  | [] => needle.isEmpty
  | c :: rest => needle.isPrefixOf (c :: rest) || pySubstr needle rest

theorem str_eq_empty_iff (s : String) : s = "" ↔ s.data = [] := by
  constructor
  · intro h; simp [h]
  · intro h; cases s; simp_all

theorem pySubstr_iff (needle : List Char) :
    ∀ hay : List Char, pySubstr needle hay = true ↔ needle <:+: hay := by
  intro hay
  induction hay with
  | nil =>
    simp only [pySubstr, List.isEmpty_iff, List.infix_nil]
  | cons c rest ih =>
    simp [pySubstr, List.infix_cons_iff, List.isPrefixOf_iff_prefix, ih]

/-- The dispatch condition shared by `BS4BaseScraper.get_link_tag` (base.py
line 947) and `BS4BaseScraper.get_tag_rra` (base.py line 916) when `download`
is requested: `(base_url_obj.netloc and actual_url_obj.netloc) and
(base_url_obj.netloc in actual_url_obj.netloc)` — both netlocs must be truthy
(non-empty strings) and the session's base netloc must occur as a substring of
the resolved target URL's netloc. -/
def dispatchForDownload (baseNetloc actualNetloc : String) : Bool :=
  (!decide (baseNetloc = "")) && (!decide (actualNetloc = ""))
    && pySubstr baseNetloc.data actualNetloc.data

/-- C5 (amended): the comparand of the same-origin check is the current
session base URL's netloc, not a fixed origin.  Provided the base URL in force
at check time has a non-empty netloc (which `get_base_url` guarantees, since
it rejects URLs without a host), a resolved link or resource URL is dispatched
for download if and only if that current base netloc occurs as a substring
(`List.IsInfix` on the characters) of the target URL's netloc.  Because `get`
(base.py line 562) and `download_url` (base.py line 740) re-set the base URL
on every fetch (claim C6), the comparand can drift away from the session
origin, after which a link on the origin host itself is no longer eligible —
see the C5 counterexample below. -/
theorem claim_C5 (baseNetloc actualNetloc : String) (h : baseNetloc ≠ "") :
    dispatchForDownload baseNetloc actualNetloc = true
      ↔ baseNetloc.data <:+: actualNetloc.data := by
  simp only [dispatchForDownload, Bool.and_eq_true, Bool.not_eq_true',
    decide_eq_false_iff_not, pySubstr_iff]
  constructor
  · rintro ⟨⟨-, -⟩, hinf⟩
    exact hinf
  · intro hinf
    refine ⟨⟨h, ?_⟩, hinf⟩
    intro hae
    rw [hae] at hinf
    exact h ((str_eq_empty_iff baseNetloc).mpr (List.infix_nil.mp hinf))

/-- Witness for C5 on the spec's own example hosts: `evil.example` is not
dispatched from an origin `site.example`, captured by instantiating the
equivalence there. -/
theorem claim_C5_witness :
    dispatchForDownload "site.example" "evil.example" = true
      ↔ ("site.example").data <:+: ("evil.example").data :=
  claim_C5 "site.example" "evil.example" (by decide)

/-- Python `str.lower()` (ASCII case folding used on tag names). -/
def pyLower (s : String) : String :=
  ⟨s.data.map Char.toLower⟩

/-- One non-overlapping left-to-right replacement pass of Python
`str.replace(old, new)` on character lists, fuelled by the input length (every
step consumes at least one character, so `s.length` fuel always suffices). -/
def pyReplaceFuel (old new : List Char) : Nat → List Char → List Char
  | 0, s => s
  | _ + 1, [] => []
  | fuel + 1, c :: rest =>
    if old ≠ [] ∧ old.isPrefixOf (c :: rest)
    then new ++ pyReplaceFuel old new fuel (List.drop (old.length - 1) rest)
    else c :: pyReplaceFuel old new fuel rest

/-- Python `s.replace(old, new)`: every occurrence of `old` replaced by `new`. -/
def pyStrReplace (s old new : String) : String :=
  ⟨pyReplaceFuel old.data new.data s.data.length s.data⟩

/-- Python `v.split('#')[0]`: the characters before the first `'#'`. -/
def pyBeforeHash (v : String) : String :=
  ⟨v.data.takeWhile (fun c => c ≠ '#')⟩

/-- Method `BS4BaseScraper.get_rra_by_tag_name` (base.py lines 682-704): the fixed
table mapping a (lower-cased) tag name to the attribute carrying its resource
reference. -/
def get_rra_by_tag_name (tag_name : String) : Option String :=
  let t := pyLower tag_name
  if t = "audio" ∨ t = "iframe" ∨ t = "track" ∨ t = "img" ∨ t = "source"
      ∨ t = "script" ∨ t = "embed" ∨ t = "video" then some "src"
  else if t = "link" ∨ t = "a" ∨ t = "use" then some "href"
  else if t = "meta" then some "content"
  else if t = "object" then some "data"
  else if t = "form" then some "action"
  else none

/-- One markup element: its tag name and its attribute list. -/
structure MarkupTag where
  name : String
  attrs : List (String × String)
deriving DecidableEq

/-- The defensive normalization of `get_tag_rra` (base.py lines 908-910):
every literal `".."` occurrence is removed, every `"./"` occurrence becomes
`"/"`, and when the result starts with `"//"` every `"//"` is collapsed to
`"/"` (Python `str.replace` replaces all occurrences). -/
def stripTagSrc (s : String) : String :=
  let s1 := pyStrReplace (pyStrReplace s ".." "") "./" "/"
  if ("//").data.isPrefixOf s1.data then pyStrReplace s1 "//" "/" else s1

/-- The attribute-extraction and normalization phase of
`BS4BaseScraper.get_tag_rra` (base.py lines 899-911): look up the tag's
resource-related attribute via `get_rra_by_tag_name`; for a `use` tag the
source runs `tag_src.split('#')[0]` before the truthiness test, which raises
`AttributeError` when the attribute is missing (`tag_src` is the Python value
`None`), modelled as `Except.error`; a missing or empty value otherwise yields
`none`; a present value is normalized by `stripTagSrc`.  The result is the
reference string handed on to `get_actual_url_from_rra` for resolution. -/
def get_tag_rra (tag : MarkupTag) : Except String (Option String) :=
  let src := get_rra_by_tag_name tag.name
  let tag_src : Option String :=
    match src with
    | none => none
    | some a => tag.attrs.lookup a
  if pyLower tag.name = "use" then
    match tag_src with
    | none => Except.error "AttributeError: NoneType object has no attribute split"
    | some v =>
      let v0 := pyBeforeHash v
      if v0 = "" then Except.ok none else Except.ok (some (stripTagSrc v0))
  else
    match tag_src with
    | none => Except.ok none
    | some v => if v = "" then Except.ok none else Except.ok (some (stripTagSrc v))

/-- C10: evaluation of `get_tag_rra` at the failing input and around it.  A
`use` element with no `href` attribute raises `AttributeError`
(`None.split('#')`), although the method's own docstring promises "Returns
None if it has no 'resource-related-attribute'" — the code contradicts its
documentation, so the claim's "returns None without raising an exception" is
the intent and the code has the bug.  The other parts of the claim hold on the
code: absent or empty attributes of non-`use` tags give `None` without an
exception, a `use` value is truncated at the first `#`, and `".."` segments
and leading `"./"`/`"//"` noise are stripped before resolution. -/
theorem claim_C10 :
    get_tag_rra ⟨"use", []⟩
        = Except.error "AttributeError: NoneType object has no attribute split"
    ∧ get_tag_rra ⟨"img", []⟩ = Except.ok none
    ∧ get_tag_rra ⟨"img", [("src", "")]⟩ = Except.ok none
    ∧ get_tag_rra ⟨"script", [("href", "x.js")]⟩ = Except.ok none
    ∧ get_tag_rra ⟨"use", [("href", "sprite.svg#icon")]⟩ = Except.ok (some "sprite.svg")
    ∧ get_tag_rra ⟨"img", [("src", "./style.css")]⟩ = Except.ok (some "/style.css")
    ∧ get_tag_rra ⟨"img", [("src", "../img/a.png")]⟩ = Except.ok (some "/img/a.png")
    ∧ get_tag_rra ⟨"img", [("src", "//cdn/a.png")]⟩ = Except.ok (some "/cdn/a.png") := by
  refine ⟨rfl, rfl, rfl, rfl, ?_, ?_, ?_, ?_⟩ <;>
    simp [get_tag_rra, stripTagSrc, get_rra_by_tag_name, pyLower, pyBeforeHash,
      pyStrReplace, pyReplaceFuel] <;> decide

/-- The scraper-session state read and written by `BS4BaseScraper.download_url`
(base.py lines 707-809): the query-parameter cache `url_query_params` (query
string → filepath of the FileHandler registered for it, line 807) and the
filesystem contents, as the list of existing file paths. -/
structure DownloadState where
  url_query_params : List (String × String)
  disk : List String
deriving DecidableEq

/-- What one `download_url` call returns: `cachedRecord` — the FileHandler
previously registered for this query string (line 782); `existingRecord` — a
FileHandler for a file already on disk with `overwrite` false (line 802);
`downloadedRecord` — a freshly fetched and saved file (line 808); `failed` —
the fetch returned `None` or saving raised, so the call returns `None`
(line 809).  A record is identified by its filepath. -/
inductive DownloadOutcome where
  | cachedRecord (path : String)
  | existingRecord (path : String)
  | downloadedRecord (path : String)
  | failed
deriving DecidableEq

/-- The target path computed in `download_url` lines 742-790: `filename` is
the name derived from the URL path or `save_as`; when the URL has a query
string that is not yet cached and `unique_if_query_params` is `True`
(lines 776-778), the filename is mangled to `uniqueName` (the output of
`utils.generate_unique_filename`, a random mangling, hence a parameter); the
result is joined onto the storage directory. -/
def download_target (st : DownloadState) (query filename uniqueName dir : String)
    (unique_if_query_params : Bool) : String :=
  dir ++ "/" ++
    (if decide (query ≠ "") && (st.url_query_params.lookup query).isNone
        && unique_if_query_params
     then uniqueName else filename)

/-- Lines 793-809 of `download_url`: fetch the URL (`self.get`, one network
request), save the content, and, when the URL has a query string, register the
new FileHandler in `url_query_params`.  `disk'` is the disk contents at fetch time
(the overwrite branch deletes the old file first).  The last component counts
network requests made by the call. -/
def downloadFetch (st : DownloadState) (disk' : List String) (query full_path : String)
    (has_query fetchOk saveOk : Bool) : DownloadOutcome × DownloadState × Nat :=
  if fetchOk then
    if saveOk then
      (DownloadOutcome.downloadedRecord full_path,
       { url_query_params :=
           if has_query then (query, full_path) :: st.url_query_params
           else st.url_query_params,
         disk := full_path :: disk' }, 1)
    else (DownloadOutcome.failed, { st with disk := disk' }, 1)
  else (DownloadOutcome.failed, { st with disk := disk' }, 1)

/-- Lines 784-809 of `download_url`: when the target file already exists on
disk it is returned as-is unless `overwrite` is requested (in which case it is
deleted and re-fetched); otherwise the URL is fetched and saved. -/
def download_url_disk (st : DownloadState) (query full_path : String)
    (has_query overwrite fetchOk saveOk : Bool) : DownloadOutcome × DownloadState × Nat :=
  if full_path ∈ st.disk then
    if overwrite then
      downloadFetch st (st.disk.erase full_path) query full_path has_query fetchOk saveOk
    else (DownloadOutcome.existingRecord full_path, st, 0)
  else
    downloadFetch st st.disk query full_path has_query fetchOk saveOk

/-- Method `BS4BaseScraper.download_url` (base.py lines 707-809).  `query` is
`url_obj.query` (empty when the URL has none; `has_query_params` is its Python
truthiness); a cache hit on a queried URL short-circuits before any disk or
network access (lines 780-782); otherwise the disk/fetch phase runs.  `fetchOk`
models whether `self.get` returns a response (vs `None`), `saveOk` whether
`save_to_file` succeeds. -/
def download_url (st : DownloadState) (query filename uniqueName dir : String)
    (overwrite unique_if_query_params fetchOk saveOk : Bool) :
    DownloadOutcome × DownloadState × Nat :=
  let has_query_params : Bool := decide (query ≠ "")
  let full_path := download_target st query filename uniqueName dir unique_if_query_params
  match st.url_query_params.lookup query with
  | some p =>
    if has_query_params then (DownloadOutcome.cachedRecord p, st, 0)
    else download_url_disk st query full_path has_query_params overwrite fetchOk saveOk
  | none =>
    download_url_disk st query full_path has_query_params overwrite fetchOk saveOk

/-- C1 counterexample: two calls of `download_url` in one session with the same
non-empty query string `"v=1"` that both return a record, yet different
records, and only one of them fetched the network.  The first call (direct
API use, `unique_if_query_params = False`) is served by the file-exists
short-circuit, which does not register the query cache; the second call (as
the crawl's `get_tag_rra` makes it, `unique_if_query_params = True`) therefore
misses the cache, mangles the filename, misses the disk and downloads a second,
different record — refuting "any two downloads with the same non-empty query
string within one session resolve to the same record". -/
theorem claim_C1_counterexample :
    download_url ⟨[], ["assets/r.css"]⟩ "v=1" "r.css" "rk7f2.css" "assets"
        false false true true
      = (DownloadOutcome.existingRecord "assets/r.css", ⟨[], ["assets/r.css"]⟩, 0)
    ∧ (download_url ⟨[], ["assets/r.css"]⟩ "v=1" "r.css" "rk7f2.css" "assets"
        false true true true).1
      = DownloadOutcome.downloadedRecord "assets/rk7f2.css"
    ∧ "assets/r.css" ≠ "assets/rk7f2.css" := by
  decide

/-- C1 (amended): (a) a call whose non-empty query string is already in the
session's query cache returns the previously registered record and performs no
network request; (b) when the query string is not cached, the computed target
file exists on disk and `overwrite` is false, no network fetch happens and the
record points at the existing file; (c) a successful network download of a
queried URL registers its record, and every later call in the session with the
same query string returns that same record with no further network request —
so a query string is fetched over the network at most once after its first
successful download.  (Two downloads of the same query string may still yield
different records when the first was served by the file-exists short-circuit,
which does not register the cache — see the counterexample.) -/
theorem claim_C1 (st : DownloadState) (query filename uniqueName dir : String)
    (overwrite uniq fetchOk saveOk : Bool) :
    (∀ p : String, query ≠ "" → st.url_query_params.lookup query = some p →
      download_url st query filename uniqueName dir overwrite uniq fetchOk saveOk
        = (DownloadOutcome.cachedRecord p, st, 0))
    ∧ (st.url_query_params.lookup query = none →
       download_target st query filename uniqueName dir uniq ∈ st.disk →
       overwrite = false →
       download_url st query filename uniqueName dir overwrite uniq fetchOk saveOk
         = (DownloadOutcome.existingRecord
              (download_target st query filename uniqueName dir uniq), st, 0))
    ∧ (query ≠ "" →
       st.url_query_params.lookup query = none →
       download_target st query filename uniqueName dir uniq ∉ st.disk →
       fetchOk = true → saveOk = true →
       download_url st query filename uniqueName dir overwrite uniq fetchOk saveOk
         = (DownloadOutcome.downloadedRecord
              (download_target st query filename uniqueName dir uniq),
            ⟨(query, download_target st query filename uniqueName dir uniq)
                :: st.url_query_params,
             download_target st query filename uniqueName dir uniq :: st.disk⟩, 1)
       ∧ ∀ (filename2 uniqueName2 dir2 : String) (ov2 uq2 f2 s2 : Bool),
           download_url
             ⟨(query, download_target st query filename uniqueName dir uniq)
                 :: st.url_query_params,
              download_target st query filename uniqueName dir uniq :: st.disk⟩
             query filename2 uniqueName2 dir2 ov2 uq2 f2 s2
           = (DownloadOutcome.cachedRecord
                (download_target st query filename uniqueName dir uniq),
              ⟨(query, download_target st query filename uniqueName dir uniq)
                  :: st.url_query_params,
               download_target st query filename uniqueName dir uniq :: st.disk⟩, 0)) := by
  refine ⟨?_, ?_, ?_⟩
  · intro p hq hl
    simp [download_url, hl, hq]
  · intro hl hmem hov
    simp [download_url, download_url_disk, hl, hmem, hov]
  · intro hq hl hmem hf hs
    constructor
    · simp [download_url, download_url_disk, downloadFetch, hl, hmem, hf, hs, hq]
    · intro filename2 uniqueName2 dir2 ov2 uq2 f2 s2
      have hl2 : (((query, download_target st query filename uniqueName dir uniq)
          :: st.url_query_params).lookup query)
          = some (download_target st query filename uniqueName dir uniq) := by
        simp [List.lookup]
      simp [download_url, hl2, hq]

/-- Witness for C1 (amended) on a concrete session: a cache hit returns the
registered record with no fetch, and a fresh queried download registers its
record for the rest of the session. -/
theorem claim_C1_witness :
    download_url ⟨[("v=2", "a/x.css")], []⟩ "v=2" "x.css" "xu.css" "a"
        false true true true
      = (DownloadOutcome.cachedRecord "a/x.css", ⟨[("v=2", "a/x.css")], []⟩, 0) :=
  (claim_C1 ⟨[("v=2", "a/x.css")], []⟩ "v=2" "x.css" "xu.css" "a"
      false true true true).1 "a/x.css" (by decide) (by decide)

/-- Function `utils.slice_iterable(iter, slice_size)` (utils.py lines 44-59):
`[iter[i : i + size] for i in range(0, len(iter), size)]`, fuelled by the
input length (for `size ≥ 1` every step consumes at least one element, so
`l.length` fuel always suffices). -/
def sliceFuel (size : Nat) : Nat → List α → List (List α)
  | 0, _ => []
  | _ + 1, [] => []
  | fuel + 1, l => l.take size :: sliceFuel size fuel (l.drop size)

/-- The chunk list `slice_iterable(link_tags, no_of_threads)` of _scrape
line 454. -/
def slice_iterable (size : Nat) (l : List α) : List (List α) :=
  sliceFuel size l.length l

/-- The contents of the `results` variable after the dispatch loop of _scrape
lines 454-455: `results` is re-bound on every chunk, so only the map over the
LAST chunk of the sliced link list survives the loop. -/
def lastSlice (size : Nat) (l : List String) : List String :=
  ((slice_iterable size l).getLast?).getD []

/-- The uncaught exceptions of the `_scrape` level loop: `valueError` is
`_get_suitable_no_threads` raising on a page with zero `<a>` tags
(base.py line 453 calling lines 357-358), and `typeError` is
`all(result)` evaluated on a `FileHandler` by the filter at base.py line 465 —
`FileHandler` (file_handler.py) defines neither `__iter__` nor `__getitem__`,
so iterating the filtered `results` at line 466 raises
`TypeError: 'FileHandler' object is not iterable`, which nothing catches. -/
inductive ScrapeError where
  | valueError : ScrapeError
  | typeError : ScrapeError
deriving DecidableEq

/-- The level loop of `BS4BaseScraper._scrape` (base.py lines 448-472),
abstracted over the site: `links p` lists the resolved targets of the `<a>`
tags of page `p` (`soup.find_all('a')`, line 450), `ok t` says whether
`get_link_tag` dispatches `t` for download and the download succeeds (the
same-origin filter plus a non-stale fetch, lines 947-961), and `n` is the
thread count `_get_suitable_no_threads` returned (its own failure modes are
claim C9's subject).  One unfolding is one iteration of the
`while True and scrape_depth > 0` loop: a page with no links raises
`ValueError` (line 453); otherwise the dispatched link targets are fetched at
level `lvl` and `scrape_depth` is decremented.  When depth remains (line 464)
the source then iterates `filter(lambda result: isinstance(result,
FileHandler) and all(result), results)` over the last thread-slice's results:
the first successfully downloaded `FileHandler` makes `all(result)` raise
`TypeError` (FileHandler is not iterable), so the loop aborts right there and
never advances `soup` to a downloaded page; when the last slice holds no
FileHandler the filter is a no-op and the unchanged soup's links are re-scraped
at the next level.  The result pairs the (level, page) fetches performed with
the exception, if any, that ended the loop. -/
def scrapeLevels (links : String → List String) (ok : String → Bool) (n : Nat) :
    Nat → String → Nat → List (Nat × String) × Option ScrapeError
  | 0, _, _ => ([], none)
  | d + 1, cur, lvl =>
    if links cur = [] then ([], some ScrapeError.valueError)
    else
      let fetched := (links cur).filter ok
      let visits := fetched.map (fun p => (lvl, p))
      if d = 0 then (visits, none)
      else if (lastSlice n (links cur)).filter ok = [] then
        let r := scrapeLevels links ok n d cur (lvl + 1)
        (visits ++ r.1, r.2)
      else (visits, some ScrapeError.typeError)

/-- Method `BS4BaseScraper._scrape` (base.py lines 415-473): the base page is
fetched once at level 0 (lines 437-446, `self.get(url)`), then the loop
scrapes from level 1 while `scrape_depth > 0`. -/
def _scrape (links : String → List String) (ok : String → Bool) (n : Nat)
    (url : String) (scrape_depth : Nat) : List (Nat × String) × Option ScrapeError :=
  let r := scrapeLevels links ok n scrape_depth url 1
  ((0, url) :: r.1, r.2)

theorem scrapeLevels_succ (links : String → List String) (ok : String → Bool)
    (n d : Nat) (cur : String) (lvl : Nat) (hl : links cur ≠ []) :
    scrapeLevels links ok n (d + 1) cur lvl
      = if d = 0 then (((links cur).filter ok).map (fun p => (lvl, p)), none)
        else if (lastSlice n (links cur)).filter ok = [] then
          (((links cur).filter ok).map (fun p => (lvl, p))
             ++ (scrapeLevels links ok n d cur (lvl + 1)).1,
           (scrapeLevels links ok n d cur (lvl + 1)).2)
        else (((links cur).filter ok).map (fun p => (lvl, p)),
              some ScrapeError.typeError) := by
  simp [scrapeLevels, hl]

theorem scrapeLevels_mem_bounds (links : String → List String) (ok : String → Bool)
    (n : Nat) :
    ∀ (d : Nat) (cur : String) (lvl l : Nat) (p : String),
      (l, p) ∈ (scrapeLevels links ok n d cur lvl).1 → lvl ≤ l ∧ l < lvl + d := by
  intro d
  induction d with
  | zero => intro cur lvl l p h; simp [scrapeLevels] at h
  | succ m ih =>
    intro cur lvl l p h
    by_cases hl : links cur = []
    · simp [scrapeLevels, hl] at h
    · rw [scrapeLevels_succ links ok n m cur lvl hl] at h
      by_cases hm : m = 0
      · rw [if_pos hm] at h
        dsimp only at h
        obtain ⟨q, hq, heq⟩ := List.mem_map.mp h
        have e1 : lvl = l := congrArg Prod.fst heq
        omega
      · rw [if_neg hm] at h
        by_cases hcr : (lastSlice n (links cur)).filter ok = []
        · rw [if_pos hcr] at h
          dsimp only at h
          rcases List.mem_append.mp h with h1 | h2
          · obtain ⟨q, hq, heq⟩ := List.mem_map.mp h1
            have e1 : lvl = l := congrArg Prod.fst heq
            omega
          · have := ih cur (lvl + 1) l p h2
            omega
        · rw [if_neg hcr] at h
          dsimp only at h
          obtain ⟨q, hq, heq⟩ := List.mem_map.mp h
          have e1 : lvl = l := congrArg Prod.fst heq
          omega

theorem scrapeLevels_reuse_mem (links : String → List String) (ok : String → Bool)
    (n : Nat) (cur : String) (hl : links cur ≠ [])
    (hlast : (lastSlice n (links cur)).filter ok = []) (p : String)
    (hp : p ∈ (links cur).filter ok) :
    ∀ (d lvl l : Nat), lvl ≤ l → l < lvl + d →
      (l, p) ∈ (scrapeLevels links ok n d cur lvl).1 := by
  intro d
  induction d with
  | zero => intro lvl l h1 h2; omega
  | succ m ih =>
    intro lvl l h1 h2
    rw [scrapeLevels_succ links ok n m cur lvl hl]
    by_cases hm : m = 0
    · rw [if_pos hm]
      dsimp only
      have hll : l = lvl := by omega
      subst hll
      exact List.mem_map.mpr ⟨p, hp, rfl⟩
    · rw [if_neg hm, if_pos hlast]
      dsimp only
      by_cases hll : l = lvl
      · subst hll
        exact List.mem_append.mpr (Or.inl (List.mem_map.mpr ⟨p, hp, rfl⟩))
      · exact List.mem_append.mpr (Or.inr (ih (lvl + 1) l (by omega) (by omega)))

/-- C2 counterexample: on a one-page-one-link site where every link is
dispatched and downloaded (`ok` everywhere true), a depth-2 scrape does not
visit any page at level 2 and does not end normally: after fetching level 1
the filter at base.py line 465 evaluates `all(result)` on the downloaded
`FileHandler` and raises an uncaught `TypeError`, refuting "the scrape
operation visits pages at traversal levels 0 through D inclusive ... and the
traversal loop terminates for every D" at `D = 2`.  Depth 1 on the same site
contrasts: it completes normally having visited levels 0 and 1. -/
theorem claim_C2_counterexample :
    _scrape (fun _ => ["a"]) (fun _ => true) 1 "root" 2
      = ([(0, "root"), (1, "a")], some ScrapeError.typeError)
    ∧ _scrape (fun _ => ["a"]) (fun _ => true) 1 "root" 1
      = ([(0, "root"), (1, "a")], none) := by
  decide

/-- C2 (amended): every page fetch of `scrape` happens at a traversal level
`≤ D` — level `D + 1` is never fetched, whether or not the loop ends with an
exception; depth 0 is exactly the single base-page fetch (plus that page's
embedded resources, not counted here) with no link traversal and no exception;
depth 1 completes normally, visiting exactly the base page's dispatched links
at level 1.  For `D ≥ 2` the loop never advances to a downloaded page: when
some link of the last thread-slice was downloaded successfully, `all(result)`
on that `FileHandler` raises an uncaught `TypeError` at the end of the first
iteration, so the scrape aborts after levels 0 and 1; when no last-slice link
was downloaded, the unchanged soup is re-scraped, so each level `1..D`
re-visits the same page's dispatched links.  The loop always ends — normally
or with the exception — after at most `D` iterations (structural recursion on
the decremented depth). -/
theorem claim_C2 (links : String → List String) (ok : String → Bool) (n : Nat)
    (url : String) (D : Nat) :
    (∀ (l : Nat) (p : String), (l, p) ∈ (_scrape links ok n url D).1 → l ≤ D)
    ∧ _scrape links ok n url 0 = ([(0, url)], none)
    ∧ (links url ≠ [] →
        _scrape links ok n url 1
          = ((0, url) :: ((links url).filter ok).map (fun p => (1, p)), none))
    ∧ (2 ≤ D → links url ≠ [] → (lastSlice n (links url)).filter ok ≠ [] →
        _scrape links ok n url D
          = ((0, url) :: ((links url).filter ok).map (fun p => (1, p)),
             some ScrapeError.typeError))
    ∧ (links url ≠ [] → (lastSlice n (links url)).filter ok = [] →
        ∀ l : Nat, 1 ≤ l → l ≤ D →
          ∀ p, p ∈ (links url).filter ok → (l, p) ∈ (_scrape links ok n url D).1) := by
  refine ⟨?_, by simp [_scrape, scrapeLevels], ?_, ?_, ?_⟩
  · intro l p h
    simp only [_scrape, List.mem_cons] at h
    rcases h with heq | h
    · cases heq; omega
    · have := scrapeLevels_mem_bounds links ok n D url 1 l p h
      omega
  · intro hl
    simp [_scrape, scrapeLevels, hl]
  · intro hD hl hcr
    obtain ⟨m, rfl⟩ : ∃ m, D = m + 2 := ⟨D - 2, by omega⟩
    simp [_scrape, scrapeLevels, hl, hcr]
  · intro hl hlast l h1 h2 p hp
    have := scrapeLevels_reuse_mem links ok n url hl hlast p hp D 1 l h1 (by omega)
    simp only [_scrape, List.mem_cons]
    exact Or.inr this

/-- Witness for C2 (amended), soup-reuse case: two links, chunk size 1, only
the first link dispatched, so the last slice holds no FileHandler; at depth 3
the level-2 pass re-visits the dispatched link. -/
theorem claim_C2_witness :
    (2, "int") ∈ (_scrape (fun _ => ["int", "ext"]) (fun s => decide (s = "int"))
        1 "root" 3).1 :=
  (claim_C2 (fun _ => ["int", "ext"]) (fun s => decide (s = "int")) 1 "root" 3).2.2.2.2
    (by decide) (by decide) 2 (by decide) (by decide) "int" (by decide)

/-- A parsed URL in the shape `urllib3.util.url.parse_url` returns: optional
scheme, host and port, plus path and query. -/
structure UrlParts where
  scheme : Option String
  host : Option String
  port : Option Nat
  path : String
  query : String
deriving DecidableEq

/-- The string `Url(scheme=..., host=..., port=...).url` — the string form of a base URL. -/
def baseUrlString (scheme host : String) (port : Option Nat) : String :=
  scheme ++ "://" ++ host ++ (match port with
    | some p => ":" ++ toString p
    | none => "")

/-- Method `BS4BaseScraper.get_base_url` (base.py lines 264-277): the scheme+host+port
of a URL; raises `InvalidURLError` when host or scheme is missing. -/
def get_base_url (u : UrlParts) : Except String String :=
  match u.host, u.scheme with
  | some h, some sc => Except.ok (baseUrlString sc h u.port)
  | _, _ => Except.error "InvalidURLError"

/-- The crawl operations that touch the session's base URL: `get` calls
`self.set_base_url(url)` on every page fetch (base.py line 562) and
`download_url` does the same on every resource download (base.py line 740). -/
inductive SessionOp where
  | getPage (u : UrlParts)
  | downloadUrl (u : UrlParts)
deriving DecidableEq

def SessionOp.url : SessionOp → UrlParts
  | SessionOp.getPage u => u
  | SessionOp.downloadUrl u => u

/-- The `set_base_url` performed by `get`/`download_url`: on a valid URL the
base URL becomes that URL's scheme+host+port; an invalid URL raises before
assigning, leaving the base unchanged. -/
def stepBase (base : Option String) (op : SessionOp) : Option String :=
  match get_base_url op.url with
  | Except.ok b => some b
  | Except.error _ => base

/-- One crawl session: `_scrape` sets the base URL from the first URL at level
0 (base.py lines 430-431), then every page fetch and resource download of the
session re-sets it. -/
def runSession (firstUrl : UrlParts) (ops : List SessionOp) : Option String :=
  ops.foldl stepBase
    (match get_base_url firstUrl with
      | Except.ok b => some b
      | Except.error _ => none)

/-- C6 counterexample: the session origin does change mid-session.  Starting a
session at `http://site.example/`, the crawl downloads the resource
`http://a.site.example/img.png` — a URL its own same-origin filter dispatches,
since `"site.example"` is a substring of `"a.site.example"` — and after that
download the base URL is `http://a.site.example`, not the original
`http://site.example`: `download_url` (base.py line 740) re-ran
`set_base_url` on the downloaded URL, so later same-origin checks compare
against the drifted origin. -/
theorem claim_C6_counterexample :
    dispatchForDownload "site.example" "a.site.example" = true
    ∧ runSession ⟨some "http", some "site.example", none, "/", ""⟩
        [SessionOp.downloadUrl ⟨some "http", some "a.site.example", none, "/img.png", ""⟩]
      = some "http://a.site.example"
    ∧ some "http://a.site.example" ≠ some "http://site.example" := by
  refine ⟨by decide, by decide, by decide⟩

theorem foldl_stepBase_const (b0 : String) :
    ∀ (ops : List SessionOp) (base : Option String),
      (∀ op ∈ ops, get_base_url op.url = Except.ok b0) →
      base = some b0 →
      ops.foldl stepBase base = some b0 := by
  intro ops
  induction ops with
  | nil => intro base _ hb; simpa using hb
  | cons op rest ih =>
    intro base hops hb
    have hstep : stepBase base op = some b0 := by
      simp [stepBase, hops op (List.mem_cons_self op rest)]
    simpa [List.foldl_cons, hstep] using
      ih (stepBase base op) (fun o ho => hops o (List.mem_cons_of_mem op ho)) hstep

/-- C6 (amended): the base URL is set from the first URL of the session, and
then re-set by every page fetch and every resource download to the base of the
URL being fetched (the last writer wins); consequently the origin remains the
original for the whole session exactly when every fetched or downloaded URL
shares the original scheme+host+port, and same-origin checks compare against
the most recently set base URL, not necessarily the first one. -/
theorem claim_C6 (firstUrl : UrlParts) (ops : List SessionOp) (b0 : String)
    (h0 : get_base_url firstUrl = Except.ok b0)
    (hops : ∀ op ∈ ops, get_base_url op.url = Except.ok b0) :
    runSession firstUrl ops = some b0
    ∧ ∀ (base : Option String) (op : SessionOp) (b : String),
        get_base_url op.url = Except.ok b → stepBase base op = some b := by
  constructor
  · unfold runSession
    rw [h0]
    exact foldl_stepBase_const b0 ops (some b0) hops rfl
  · intro base op b hb
    simp [stepBase, hb]

/-- Witness for C6 (amended): a session whose two fetches stay on
`http://site.example` keeps the original base URL. -/
theorem claim_C6_witness :
    runSession ⟨some "http", some "site.example", none, "/", ""⟩
      [SessionOp.getPage ⟨some "http", some "site.example", none, "/a.html", ""⟩,
       SessionOp.downloadUrl ⟨some "http", some "site.example", none, "/b.css", ""⟩]
      = some "http://site.example" :=
  (claim_C6 ⟨some "http", some "site.example", none, "/", ""⟩
    [SessionOp.getPage ⟨some "http", some "site.example", none, "/a.html", ""⟩,
     SessionOp.downloadUrl ⟨some "http", some "site.example", none, "/b.css", ""⟩]
    "http://site.example" (by decide) (by decide)).1

/-- C5 counterexample: the claim's "every link on the origin host itself is
eligible" fails, because the comparand of the same-origin check is the current
(mutable) base URL, not the session origin.  In a session started at
`http://site.example/`, the resource `http://www.site.example/app.js` passes
the check (`"site.example"` is a substring of `"www.site.example"`) and its
download re-sets the base URL to `http://www.site.example` (base.py line 740);
a link to the origin host `site.example` encountered afterwards fails the
check (`"www.site.example"` is not a substring of `"site.example"`) and is
not dispatched. -/
theorem claim_C5_counterexample :
    dispatchForDownload "site.example" "www.site.example" = true
    ∧ runSession ⟨some "http", some "site.example", none, "/", ""⟩
        [SessionOp.downloadUrl
          ⟨some "http", some "www.site.example", none, "/app.js", ""⟩]
      = some "http://www.site.example"
    ∧ dispatchForDownload "www.site.example" "site.example" = false := by
  decide

/-- Python `p.startswith(q)` (`q.data` is a prefix of `p`... argument order:
`pyStartsWith q s` is `s.startswith(q)`). -/
def pyStartsWith (q s : String) : Bool :=
  q.data.isPrefixOf s.data

/-- The `os.path.commonprefix` element count on the two split segment lists, as
computed inside `os.path.relpath`. -/
def commonLen : List String → List String → Nat
  | a :: as, b :: bs => if a = b then commonLen as bs + 1 else 0
  | _, _ => 0

/-- Function `os.path.relpath(dest, start)` on segment lists: climb out of the
non-common tail of `start` with `".."` segments, then descend into the
non-common tail of `dest`.  (`os.path.relpath` returns `'.'` when this list is
empty; `relref` below adds that case.) -/
def relpathSegs (dest start : List String) : List String :=
  List.replicate (start.length - commonLen dest start) ".."
    ++ dest.drop (commonLen dest start)

/-- Resolution of a relative reference joined onto a directory, segment by
segment: `".."` pops a directory, `"."` is skipped, any other segment
descends.  This is the "relative-path join from the mirrored page's
directory" of the round-trip property. -/
def resolveSegs : List String → List String → List String
  | base, [] => base
  | base, seg :: rest =>
    if seg = ".." then resolveSegs base.dropLast rest
    else if seg = "." then resolveSegs base rest
    else resolveSegs (base ++ [seg]) rest

/-- The attribute value written back by `BS4BaseScraper._get_tag_rra` (base.py
lines 849-860), at segment level: `s_p = os.path.relpath(dest_path,
start_path)` (with `'.'` for an empty result), rendered with forward slashes
after `s_p.replace('\\', '/')`, and given a `./` prefix — one extra `"."`
segment — unless it already starts with a dot
(`s_p if s_p.startswith('.') else f'./{s_p}'`). -/
def relref (start dest : List String) : List String :=
  match relpathSegs dest start with
  | [] => ["."]
  | s :: rest => if pyStartsWith "." s then s :: rest else "." :: s :: rest

/-- The string written into the element's attribute: `relref` joined with
forward slashes. -/
def renderRef (segs : List String) : String :=
  String.intercalate "/" segs

theorem commonLen_le :
    ∀ a b : List String, commonLen a b ≤ a.length ∧ commonLen a b ≤ b.length := by
  intro a
  induction a with
  | nil => intro b; simp [commonLen]
  | cons x xs ih =>
    intro b
    cases b with
    | nil => simp [commonLen]
    | cons y ys =>
      by_cases h : x = y
      · have := ih ys
        simp only [commonLen, if_pos h, List.length_cons]
        omega
      · simp [commonLen, h]

theorem commonLen_take :
    ∀ a b : List String, a.take (commonLen a b) = b.take (commonLen a b) := by
  intro a
  induction a with
  | nil => intro b; simp [commonLen]
  | cons x xs ih =>
    intro b
    cases b with
    | nil => simp [commonLen]
    | cons y ys =>
      by_cases h : x = y
      · subst h
        simp [commonLen, List.take_succ_cons, ih ys]
      · simp [commonLen, h]

theorem resolveSegs_append (xs ys : List String) :
    ∀ base : List String,
      resolveSegs base (xs ++ ys) = resolveSegs (resolveSegs base xs) ys := by
  induction xs with
  | nil => intro base; simp [resolveSegs]
  | cons s rest ih =>
    intro base
    by_cases h1 : s = ".."
    · simp [resolveSegs, h1, ih]
    · by_cases h2 : s = "."
      · simp [resolveSegs, h1, h2, ih]
      · simp [resolveSegs, h1, h2, ih]

theorem resolveSegs_replicate (k : Nat) :
    ∀ base : List String,
      resolveSegs base (List.replicate k "..") = base.take (base.length - k) := by
  induction k with
  | zero => intro base; simp [resolveSegs]
  | succ n ih =>
    intro base
    rw [List.replicate_succ]
    show resolveSegs base (".." :: List.replicate n "..") = _
    rw [show resolveSegs base (".." :: List.replicate n "..")
        = resolveSegs base.dropLast (List.replicate n "..") by simp [resolveSegs]]
    rw [ih base.dropLast, List.dropLast_eq_take, List.take_take]
    congr 1
    simp only [List.length_take]
    omega

theorem resolveSegs_plain (segs : List String)
    (h : ∀ s ∈ segs, s ≠ ".." ∧ s ≠ ".") :
    ∀ base : List String, resolveSegs base segs = base ++ segs := by
  induction segs with
  | nil => intro base; simp [resolveSegs]
  | cons s rest ih =>
    intro base
    obtain ⟨h1, h2⟩ := h s (List.mem_cons_self s rest)
    rw [show resolveSegs base (s :: rest) = resolveSegs (base ++ [s]) rest by
      simp [resolveSegs, h1, h2]]
    rw [ih (fun t ht => h t (List.mem_cons_of_mem s ht)) (base ++ [s])]
    simp

theorem relpath_roundtrip (start dest : List String)
    (hdest : ∀ s ∈ dest, s ≠ ".." ∧ s ≠ ".") :
    resolveSegs start (relpathSegs dest start) = dest := by
  have hle := commonLen_le dest start
  unfold relpathSegs
  rw [resolveSegs_append, resolveSegs_replicate]
  rw [show start.length - (start.length - commonLen dest start) = commonLen dest start
    by omega]
  rw [resolveSegs_plain (dest.drop (commonLen dest start))
    (fun s hs => hdest s (List.mem_of_mem_drop hs))]
  rw [← commonLen_take dest start]
  exact List.take_append_drop _ dest

theorem mem_relref (start dest : List String) (s : String)
    (h : s ∈ relref start dest) : s = "." ∨ s ∈ relpathSegs dest start := by
  cases hrel : relpathSegs dest start with
  | nil =>
    simp [relref, hrel] at h
    exact Or.inl h
  | cons a rest =>
    simp only [relref, hrel] at h
    split at h
    · exact Or.inr h
    · rcases List.mem_cons.mp h with h1 | h2
      · exact Or.inl h1
      · exact Or.inr h2

/-- C7: for a page stored in directory `start` and a downloaded resource file
`dest` (both as normalized absolute segment lists, so neither contains `".."`
or `"."` segments), the rewritten attribute value `relref start dest`:
(1) resolves, by relative-path join onto the page's directory, back to exactly
the downloaded file; (2) starts with a dot — it is `'.'`, starts with `".."`
climbs, or has the `./` prefix added exactly when the relpath was not already
dot-relative; and (3) introduces no backslash: rendered with `/` separators
(`renderRef`), its segments contain none when the destination path's segments
contain none (the source converts with `replace('\\', '/')`). -/
theorem claim_C7 (start dest : List String)
    (hdest : ∀ s ∈ dest, s ≠ ".." ∧ s ≠ ".") :
    resolveSegs start (relref start dest) = dest
    ∧ pyStartsWith "." ((relref start dest).headD "") = true
    ∧ ((∀ s ∈ dest, ('\\' : Char) ∉ s.data) →
        ∀ s ∈ relref start dest, ('\\' : Char) ∉ s.data) := by
  have hle := commonLen_le dest start
  refine ⟨?_, ?_, ?_⟩
  · cases hrel : relpathSegs dest start with
    | nil =>
      have hparts := List.append_eq_nil.mp hrel
      have hrep : start.length - commonLen dest start = 0 := by
        have := hparts.1
        rwa [List.replicate_eq_nil] at this
      have hdrop : dest.length ≤ commonLen dest start := by
        have := hparts.2
        rwa [List.drop_eq_nil_iff_le] at this
      have histart : commonLen dest start = start.length := by omega
      have hidest : commonLen dest start = dest.length := by omega
      have hsd : start = dest := by
        have h1 : dest.take (commonLen dest start) = dest := by
          rw [hidest]; exact List.take_length dest
        have h2 : start.take (commonLen dest start) = start := by
          rw [histart]; exact List.take_length start
        rw [← h2, ← commonLen_take dest start, h1]
      simp only [relref, hrel]
      simp [resolveSegs, hsd]
    | cons a rest =>
      have hrt := relpath_roundtrip start dest hdest
      rw [hrel] at hrt
      simp only [relref, hrel]
      split
      · exact hrt
      · rw [show resolveSegs start ("." :: a :: rest) = resolveSegs start (a :: rest) by
          simp [resolveSegs]]
        exact hrt
  · cases hrel : relpathSegs dest start with
    | nil => simp [relref, hrel]; decide
    | cons a rest =>
      simp only [relref, hrel]
      split
      · next hdot => simpa using hdot
      · simp; decide
  · intro hbs s hs
    rcases mem_relref start dest s hs with rfl | hmem
    · decide
    · unfold relpathSegs at hmem
      rcases List.mem_append.mp hmem with hrep | hdrop
      · rw [List.eq_of_mem_replicate hrep]; decide
      · exact hbs s (List.mem_of_mem_drop hdrop)

/-- Witness for C7: page directory `C:/mirror/site/sub`, resource file
`C:/mirror/site/img/logo.png` — the rewritten reference is `../img/logo.png`
and joining it onto the page directory yields the resource file again. -/
theorem claim_C7_witness :
    resolveSegs ["C:", "mirror", "site", "sub"]
        (relref ["C:", "mirror", "site", "sub"] ["C:", "mirror", "site", "img", "logo.png"])
      = ["C:", "mirror", "site", "img", "logo.png"] :=
  (claim_C7 ["C:", "mirror", "site", "sub"] ["C:", "mirror", "site", "img", "logo.png"]
    (by intro s hs; fin_cases hs <;> exact ⟨by decide, by decide⟩)).1

end BS4Scraper
